import Mathlib

/-!
# Verification of the Moonshot Fund backend (src/main.py)

Shallow embedding of the FastAPI backend in `src/main.py`. The store is a
pair of in-memory document collections ("project" and "donation"); Mongo
queries used by the code (equality filters, `find_one` by `_id`, the
`$match`/`$group`/`$sum` aggregation) are embedded as list operations with
Mongo's semantics (a document missing a field does not match an equality
filter on that field; an empty aggregation yields no group rows).

Numbers (`amount`, `goal_amount`) travel through the program as IEEE-754
binary64 values (pydantic `float`, BSON double). The endpoint model below
carries them as rationals, which is exact for the claims about zero sums,
defaults and error paths. For the order-dependence of the aggregation —
where rounding is the whole point — the `$sum` accumulation is additionally
modelled faithfully as a correctly-rounded binary64 left fold (`fl`,
`floatSum`, `aggregateTotalFloat` below): each partial sum is rounded to
the nearest representable double (53-bit significand, ties to even;
exponent unbounded, which agrees with binary64 at every magnitude involved
here since no overflow or subnormal arises).

`database.py` and `schemas.py` are imported by `main.py` but are not part of
the sources given; the definitions below that stand for them are marked
`Modelled from the spec:` in their doc comments.
-/

set_option autoImplicit false

deriving instance DecidableEq for Except

namespace Moonshot

/-- A stored project document. The store is schemaless, so every field other
than the store-assigned `_id` may be absent (`Option`). -/
structure ProjectDoc where
  _id : String
  title : Option String
  founder_name : Option String
  founder_email : Option String
  description : Option String
  category : Option String
  goal_amount : Option ℚ
  featured : Option Bool
deriving Repr, DecidableEq

/-- A stored donation document (always written through the `Donation`
schema, so its fields are present). -/
structure DonationDoc where
  _id : String
  project_id : String
  donor_name : String
  amount : ℚ
  message : Option String
deriving Repr, DecidableEq

/-- The document store: the two collections used by `main.py`, plus the
counter the store uses to hand out fresh identifiers. -/
structure Store where
  projects : List ProjectDoc
  donations : List DonationDoc
  nextId : Nat
deriving Repr, DecidableEq

/-- `bson.ObjectId` accepts a string exactly when it is a 24-character
hexadecimal string (the 12-byte binary form does not arise for `str`
input). -/
def isHexChar (c : Char) : Bool :=
  c.isDigit || (('a' ≤ c && c ≤ 'f') || ('A' ≤ c && c ≤ 'F'))

/-- String-form validity check performed by `ObjectId(pid)`. -/
def isValidObjectId (s : String) : Bool :=
  s.length == 24 && s.data.all isHexChar

/-- The message of the `bson.errors.InvalidId` exception raised by
`ObjectId` on a malformed string (its `str(e)` text). -/
def objectIdErrMsg (s : String) : String :=
  "'" ++ s ++ "' is not a valid ObjectId, it must be a 12-byte input or a 24-character hex string"

/-- Store-assigned identifier for the `n`-th insert: the 24-hex-digit
rendering of `n`. -/
def idOfNat (n : Nat) : String :=
  let digits := Nat.toDigits 16 n
  String.mk (List.replicate (24 - digits.length) '0' ++ digits)

/-- An exception escaping an endpoint body: either a `fastapi.HTTPException`
carrying a status code and detail text, or any other Python exception
carrying its `str(e)` message. -/
inductive Exc where
  | httpExc (status : Nat) (detail : String)
  | generic (msg : String)
deriving Repr, DecidableEq

/-- The error ultimately returned to the HTTP client: a status code and a
detail string. -/
inductive HttpError where
  | http (status : Nat) (detail : String)
deriving Repr, DecidableEq

/-- The `except HTTPException: raise / except Exception as e: raise
HTTPException(500, str(e))` boundary wrapped around the bodies of
`create_donation` (src/main.py:135-138) and `get_project`
(src/main.py:164-167): an `HTTPException` passes through unchanged, any
other exception becomes a 500 carrying the message text. -/
def handleBoundary {α : Type} : Except Exc α → Except HttpError α
  | .ok a => .ok a
  | .error (.httpExc s d) => .error (.http s d)
  | .error (.generic m) => .error (.http 500 m)

/-- The `except Exception as e: raise HTTPException(500, str(e))` boundary
of `create_project` and `list_projects` (src/main.py:80-81, 116-117): every
exception, of any kind, becomes a 500. -/
def handleBoundary500 {α : Type} : Except Exc α → Except HttpError α
  | .ok a => .ok a
  | .error (.httpExc _ d) => .error (.http 500 d)
  | .error (.generic m) => .error (.http 500 m)

/-- The category-filter dictionary built by `list_projects`
(src/main.py:86-90): `category` is added only when truthy (Python: a
non-empty string), `featured` whenever it is not `None`. -/
structure ProjFilter where
  category : Option String
  featured : Option Bool
deriving Repr, DecidableEq

/-- Mongo equality matching of a project document against a filter
dictionary: each key present in the filter must be present in the document
with an equal value (a document lacking the field does not match). -/
def matchesFilter (f : ProjFilter) (d : ProjectDoc) : Bool :=
  (match f.category with
   | none => true
   | some c => d.category == some c) &&
  (match f.featured with
   | none => true
   | some b => d.featured == some b)

/-- Modelled from the spec: `get_documents` of the missing `database.py`
(the Gateway `find`): returns all documents of the collection matching the
filter by exact field equality on the provided keys; an empty filter
returns all documents, in stored order. -/
def get_documents (s : Store) (f : ProjFilter) : List ProjectDoc :=
  s.projects.filter (fun d => matchesFilter f d)

/-- The `$match`/`$group`/`$sum` aggregation pipeline run per project
(src/main.py:97-103 and 146-152): group rows for the donations whose
`project_id` equals `pid`. With a single match key there is at most one
group; no matching documents yield no rows. -/
def aggregateRows (donations : List DonationDoc) (pid : String) : List ℚ :=
  let matched := donations.filter (fun d => d.project_id == pid)
  if matched.isEmpty then [] else [(matched.map (fun d => d.amount)).sum]

/-- The `total = 0.0; for agg in donations: total = float(agg["total"])`
loop (src/main.py:101-103, 150-152): the last group row, or `0.0` when the
aggregation produced none. -/
def totalOfRows (rows : List ℚ) : ℚ :=
  rows.foldl (fun _ t => t) 0

/-- `total_donations` as computed for a project id, with the accumulation
idealized as exact rational addition (adequate wherever no rounding can
occur; see `aggregateTotalFloat` for the rounded refinement). -/
def aggregateTotal (donations : List DonationDoc) (pid : String) : ℚ :=
  totalOfRows (aggregateRows donations pid)

/-- Round a rational to the nearest integer, ties to even (the IEEE-754
default rounding applied to a scaled significand). -/
def roundNE (q : ℚ) : ℤ :=
  if q - ⌊q⌋ < 1/2 then ⌊q⌋
  else if 1/2 < q - ⌊q⌋ then ⌊q⌋ + 1
  else if ⌊q⌋ % 2 = 0 then ⌊q⌋ else ⌊q⌋ + 1

/-- Correct rounding of a rational to the binary64 value grid: scale into
the binade (53-bit significand), round to nearest with ties to even, and
scale back. The exponent is unbounded, which coincides with binary64
whenever no overflow or subnormal is involved. -/
def fl (x : ℚ) : ℚ :=
  if x = 0 then 0
  else ((roundNE (x / 2 ^ (Int.log 2 |x| - 52)) : ℤ) : ℚ) * 2 ^ (Int.log 2 |x| - 52)

/-- The Mongo `$sum` accumulator over BSON doubles (src/main.py:99, 148):
a left fold over the matched documents in stored order, each addition
correctly rounded to binary64. -/
def floatSum (l : List ℚ) : ℚ := l.foldl (fun acc a => fl (acc + a)) 0

/-- The `$match`/`$group`/`$sum` total for a project id with the double
accumulation modelled faithfully (refines `aggregateTotal`): the rounded
fold of the matching donations' amounts in stored order. An empty match
again yields `0`, agreeing with `totalOfRows []`. -/
def aggregateTotalFloat (donations : List DonationDoc) (pid : String) : ℚ :=
  floatSum ((donations.filter (fun d => d.project_id == pid)).map (fun d => d.amount))

/-- The `ProjectOut` response DTO (src/main.py:57-66): every field is
required; pydantic validation fails when a required text field is fed
`None`. -/
structure ProjectOut where
  id : String
  title : String
  founder_name : String
  founder_email : String
  description : String
  category : String
  goal_amount : ℚ
  featured : Bool
  total_donations : ℚ
deriving Repr, DecidableEq

/-- Construction of one `ProjectOut` from a stored document
(src/main.py:104-114 and 153-163): `d.get(field)` yields `None` for an
absent field, and pydantic rejects `None` for the required `str` fields
`title`, `founder_name`, `founder_email`, `description`; `category`,
`goal_amount` and `featured` instead receive the defaults "AI", `0` and
`False` from the `d.get(key, default)` calls. Errors carry the pydantic
`ValidationError` message for the offending field. -/
def assembleProjectOut (donations : List DonationDoc) (d : ProjectDoc) :
    Except String ProjectOut :=
  let total := aggregateTotal donations d._id
  match d.title, d.founder_name, d.founder_email, d.description with
  | some t, some fn, some fe, some desc =>
    .ok { id := d._id, title := t, founder_name := fn, founder_email := fe,
          description := desc, category := d.category.getD "AI",
          goal_amount := d.goal_amount.getD 0,
          featured := d.featured.getD false, total_donations := total }
  | none, _, _, _ =>
    .error "1 validation error for ProjectOut: title none is not an allowed value"
  | _, none, _, _ =>
    .error "1 validation error for ProjectOut: founder_name none is not an allowed value"
  | _, _, none, _ =>
    .error "1 validation error for ProjectOut: founder_email none is not an allowed value"
  | _, _, _, none =>
    .error "1 validation error for ProjectOut: description none is not an allowed value"

/-- The `for d in docs: ... results.append(ProjectOut(...))` loop of
`list_projects` (src/main.py:94-114): documents are converted in order;
the first validation failure aborts the whole request. -/
def assembleAll (donations : List DonationDoc) :
    List ProjectDoc → Except String (List ProjectOut)
  | [] => .ok []
  | d :: ds =>
    match assembleProjectOut donations d with
    | .error m => .error m
    | .ok v =>
      match assembleAll donations ds with
      | .error m => .error m
      | .ok vs => .ok (v :: vs)

/-- The filter dictionary built from the two query parameters
(src/main.py:86-90): `category` is added only when it is truthy in Python
(present and non-empty); `featured` whenever it is present. -/
def mkProjFilter (category : Option String) (featured : Option Bool) : ProjFilter :=
  { category := match category with
      | none => none
      | some c => if c = "" then none else some c,
    featured := featured }

/-- `GET /api/projects` (src/main.py:83-117). Matching documents are
assembled into `ProjectOut` views; any exception becomes a 500. -/
def list_projects (s : Store) (category : Option String) (featured : Option Bool) :
    Except HttpError (List ProjectOut) :=
  handleBoundary500 <|
    match assembleAll s.donations (get_documents s (mkProjFilter category featured)) with
    | .ok vs => .ok vs
    | .error m => .error (.generic m)

/-- Modelled from the spec: `find_one` of the store on the "project"
collection by `_id` (the Gateway `findOne`): first stored document whose
identifier equals the given one, or the absent sentinel. -/
def findOneProject (s : Store) (pid : String) : Option ProjectDoc :=
  s.projects.find? (fun d => d._id == pid)

/-- Body of `GET /api/projects/{project_id}` before the exception boundary
(src/main.py:142-163). Note the `ObjectId(project_id)` call at line 143
sits in the generic `try` block: a malformed identifier raises
`bson.errors.InvalidId`, which is not an `HTTPException`. -/
def get_project_body (s : Store) (project_id : String) : Except Exc ProjectOut :=
  if ¬ isValidObjectId project_id then
    .error (.generic (objectIdErrMsg project_id))
  else
    match findOneProject s project_id with
    | none => .error (.httpExc 404 "Project not found")
    | some doc =>
      match assembleProjectOut s.donations doc with
      | .ok v => .ok v
      | .error m => .error (.generic m)

/-- `GET /api/projects/{project_id}` (src/main.py:140-167): the body
wrapped in the `except HTTPException: raise / except Exception: 500`
boundary. -/
def get_project (s : Store) (project_id : String) : Except HttpError ProjectOut :=
  handleBoundary (get_project_body s project_id)

/-- The donation creation request body (`Donation` schema of the missing
`schemas.py`). Modelled from the spec: `project_id` text, `donor_name`
text, `amount` number, optional `message`. -/
structure DonationIn where
  project_id : String
  donor_name : String
  amount : ℚ
  message : Option String
deriving Repr, DecidableEq

/-- Modelled from the spec: `create_document("donation", donation)` of the
missing `database.py` (the Gateway `insert`): persists one document with a
fresh store-assigned identifier and returns that identifier as text. -/
def insertDonation (s : Store) (don : DonationIn) : String × Store :=
  let id := idOfNat s.nextId
  (id,
   { s with
     donations := s.donations ++
       [{ _id := id, project_id := don.project_id, donor_name := don.donor_name,
          amount := don.amount, message := don.message }],
     nextId := s.nextId + 1 })

/-- One store operation issued by `create_donation`, recorded so that
"performs no lookup / no insert" is a statement about the code's visible
behaviour. -/
inductive GatewayOp where
  | findOneProjectOp (id : String)
  | insertDonationOp
deriving Repr, DecidableEq

/-- Outcome of `POST /api/donations`: the HTTP response, the store after
the call, and the trace of store operations performed. -/
structure DonationResult where
  response : Except HttpError String
  store : Store
  trace : List GatewayOp
deriving Repr, DecidableEq

/-- Body of `create_donation` before the exception boundary
(src/main.py:122-134): validate the identifier syntax (its own
`try/except` maps the parse failure to a 400), look the project up, then
insert. -/
def create_donation_body (s : Store) (don : DonationIn) :
    Except Exc String × Store × List GatewayOp :=
  if ¬ isValidObjectId don.project_id then
    (.error (.httpExc 400 "Invalid project_id"), s, [])
  else
    match findOneProject s don.project_id with
    | none =>
      (.error (.httpExc 404 "Project not found"), s,
       [.findOneProjectOp don.project_id])
    | some _ =>
      let (id, s2) := insertDonation s don
      (.ok id, s2, [.findOneProjectOp don.project_id, .insertDonationOp])

/-- `POST /api/donations` (src/main.py:119-138): the body wrapped in the
`except HTTPException: raise / except Exception: 500` boundary. -/
def create_donation (s : Store) (don : DonationIn) : DonationResult :=
  let (r, s2, tr) := create_donation_body s don
  { response := handleBoundary r, store := s2, trace := tr }

/-- The project creation request body (`Project` schema of the missing
`schemas.py`). Modelled from the spec: `title`, `founder_name`,
`founder_email`, `description` required text; `category` text defaulting
to the fixed value "AI" when absent; `goal_amount` non-negative number;
`featured` boolean defaulting to false. -/
structure ProjectIn where
  title : String
  founder_name : String
  founder_email : String
  description : String
  category : Option String
  goal_amount : ℚ
  featured : Option Bool
deriving Repr, DecidableEq

/-- Modelled from the spec: `create_document("project", project)` of the
missing `database.py`: persists the schema-validated input (defaults
applied) as one document with a fresh identifier, returned as text. Used
by `POST /api/projects` (src/main.py:75-81). -/
def create_project (s : Store) (p : ProjectIn) : String × Store :=
  let id := idOfNat s.nextId
  (id,
   { s with
     projects := s.projects ++
       [{ _id := id, title := some p.title, founder_name := some p.founder_name,
          founder_email := some p.founder_email, description := some p.description,
          category := some (p.category.getD "AI"),
          goal_amount := some p.goal_amount,
          featured := some (p.featured.getD false) }],
     nextId := s.nextId + 1 })

/-- The environment `GET /test` runs against: the imported `db` handle may
be `None`; a live handle has an optional `name` attribute and a
`list_collection_names()` call that either returns the collection names or
raises with a message. -/
structure DbConn where
  name : Option String
  listCollectionNames : Except String (List String)
deriving Repr, DecidableEq

/-- The response dictionary built by `test_database`
(src/main.py:28-35). -/
structure TestResponse where
  backend : String
  database : String
  database_url : Option String
  database_name : Option String
  connection_status : String
  collections : List String
deriving Repr, DecidableEq

/-- `GET /test` (src/main.py:25-54): a total function — every failure of
the store is caught and written into the `database` field of the response,
truncated to 50 characters, and the request itself always succeeds. -/
def test_database (dbOpt : Option DbConn) (databaseUrlSet : Bool) : TestResponse :=
  let base : TestResponse :=
    { backend := "✅ Running", database := "❌ Not Available", database_url := none,
      database_name := none, connection_status := "Not Connected", collections := [] }
  match dbOpt with
  | none => { base with database := "⚠️  Available but not initialized" }
  | some db =>
    let r1 : TestResponse :=
      { base with
        database := "✅ Available",
        database_url := some (if databaseUrlSet then "✅ Set" else "❌ Not Set"),
        database_name := some (db.name.getD "✅ Connected"),
        connection_status := "Connected" }
    match db.listCollectionNames with
    | .ok cols =>
      { r1 with collections := cols.take 10, database := "✅ Connected & Working" }
    | .error e =>
      { r1 with database := "⚠️  Connected but Error: " ++ (e.take 50) }

/-- The HTTP status code of a response: `none` for a success, the
`HTTPException` status for a failure. -/
def responseStatus {α : Type} : Except HttpError α → Option Nat
  | .ok _ => none
  | .error (.http s _) => some s

/-! ## Helper lemmas -/

/-- The per-project aggregation equals the plain sum of the amounts of the
matching donations (the empty aggregate contributes the same `0` as the
empty sum). -/
theorem aggregateTotal_eq_sum (dons : List DonationDoc) (pid : String) :
    aggregateTotal dons pid =
      ((dons.filter (fun d => d.project_id == pid)).map (fun d => d.amount)).sum := by
  unfold aggregateTotal aggregateRows totalOfRows
  cases hf : dons.filter (fun d => d.project_id == pid) with
  | nil => simp [hf]
  | cons a l => simp [hf]

/-- A project with no matching donations aggregates to `0`. -/
theorem aggregateTotal_eq_zero (dons : List DonationDoc) (pid : String)
    (h : ∀ don ∈ dons, don.project_id ≠ pid) :
    aggregateTotal dons pid = 0 := by
  rw [aggregateTotal_eq_sum]
  have hnil : dons.filter (fun d => d.project_id == pid) = [] := by
    rw [List.filter_eq_nil_iff]
    intro a ha
    simpa using h a ha
  rw [hnil]
  rfl

/-- The aggregation is invariant under permutation of the stored donation
list — in the exact-rational idealization. -/
theorem aggregateTotal_perm (dons1 dons2 : List DonationDoc) (pid : String)
    (h : dons1.Perm dons2) :
    aggregateTotal dons1 pid = aggregateTotal dons2 pid := by
  rw [aggregateTotal_eq_sum, aggregateTotal_eq_sum]
  exact List.Perm.sum_eq ((h.filter _).map _)

/-- Characterisation of `Int.log 2` by the enclosing binade. -/
theorem log2_eq_of_bounds (r : ℚ) (n : ℤ) (hr : 0 < r)
    (h1 : (2:ℚ) ^ n ≤ r) (h2 : r < (2:ℚ) ^ (n + 1)) : Int.log 2 r = n := by
  have hle : n ≤ Int.log 2 r := by
    refine (Int.zpow_le_iff_le_log one_lt_two hr).mp ?_
    exact_mod_cast h1
  have hlt : Int.log 2 r < n + 1 := by
    refine (Int.lt_zpow_iff_log_lt one_lt_two hr).mp ?_
    exact_mod_cast h2
  omega

/-- Rounding to nearest fixes integers. -/
theorem roundNE_intCast (m : ℤ) : roundNE (m : ℚ) = m := by
  unfold roundNE
  rw [Int.floor_intCast]
  norm_num

/-- Zero is a double. -/
theorem fl_zero : fl 0 = 0 := by simp [fl]

/-- A value exactly on the binary64 grid of its binade is unchanged by
rounding. -/
theorem fl_fix (x : ℚ) (hx : x ≠ 0) (k : ℤ) (hlog : Int.log 2 |x| = k) (m : ℤ)
    (hm : x = (m : ℚ) * 2 ^ (k - 52)) : fl x = x := by
  have h2 : ((2:ℚ) ^ (k - 52)) ≠ 0 := zpow_ne_zero _ (by norm_num)
  have hq : x / 2 ^ (k - 52) = (m : ℚ) := by
    rw [hm, mul_div_cancel_right₀ _ h2]
  unfold fl
  rw [if_neg hx, hlog, hq, roundNE_intCast, ← hm]

/-- A scaled significand sitting exactly halfway between two grid points
rounds to the even lower neighbour. -/
theorem fl_tie_even (x : ℚ) (hx : x ≠ 0) (k : ℤ) (hlog : Int.log 2 |x| = k) (m : ℤ)
    (hfloor : ⌊x / 2 ^ (k - 52)⌋ = m)
    (hfrac : x / 2 ^ (k - 52) - (m : ℚ) = 1/2)
    (heven : m % 2 = 0) :
    fl x = (m : ℚ) * 2 ^ (k - 52) := by
  unfold fl roundNE
  rw [if_neg hx, hlog, hfloor,
      if_neg (by rw [hfrac]; norm_num), if_neg (by rw [hfrac]; norm_num),
      if_pos heven]

/-- `2^53` is representable. -/
theorem fl_big : fl (9007199254740992 : ℚ) = 9007199254740992 := by
  refine fl_fix _ (by norm_num) 53 ?_ 4503599627370496 (by norm_num)
  rw [abs_of_pos (by norm_num)]
  exact log2_eq_of_bounds _ 53 (by norm_num) (by norm_num) (by norm_num)

/-- `-2^53` is representable. -/
theorem fl_negBig : fl (-9007199254740992 : ℚ) = -9007199254740992 := by
  refine fl_fix _ (by norm_num) 53 ?_ (-4503599627370496) (by norm_num)
  rw [show |(-9007199254740992 : ℚ)| = 9007199254740992 from by
    rw [abs_of_neg (by norm_num)]; norm_num]
  exact log2_eq_of_bounds _ 53 (by norm_num) (by norm_num) (by norm_num)

/-- `2^53 + 1` is not representable: standing halfway between `2^53` and
`2^53 + 2`, it rounds to even, losing the `+ 1`. -/
theorem fl_tiePlusOne : fl (9007199254740993 : ℚ) = 9007199254740992 := by
  have h := fl_tie_even (9007199254740993 : ℚ) (by norm_num) 53 ?_ 4503599627370496 ?_ ?_ ?_
  · rw [h]; norm_num
  · rw [abs_of_pos (by norm_num)]
    exact log2_eq_of_bounds _ 53 (by norm_num) (by norm_num) (by norm_num)
  · rw [Int.floor_eq_iff]
    constructor <;> norm_num
  · norm_num
  · norm_num

/-- `1` is representable. -/
theorem fl_one : fl (1 : ℚ) = 1 := by
  refine fl_fix _ (by norm_num) 0 ?_ 4503599627370496 (by norm_num)
  rw [abs_of_pos (by norm_num)]
  exact log2_eq_of_bounds _ 0 (by norm_num) (by norm_num) (by norm_num)

/-- Everything a successful `ProjectOut` assembly says about the stored
document: the four required text fields were present and are copied, the
three defaulted fields take the `d.get(key, default)` values, and the
total is the aggregation for the document's identifier. -/
theorem assembleProjectOut_ok (dons : List DonationDoc) (d : ProjectDoc)
    (v : ProjectOut) (h : assembleProjectOut dons d = Except.ok v) :
    v.id = d._id ∧ v.category = d.category.getD "AI" ∧
    v.goal_amount = d.goal_amount.getD 0 ∧ v.featured = d.featured.getD false ∧
    v.total_donations = aggregateTotal dons d._id ∧
    d.title = some v.title ∧ d.founder_name = some v.founder_name ∧
    d.founder_email = some v.founder_email ∧ d.description = some v.description := by
  cases ht : d.title with
  | none => simp [assembleProjectOut, ht] at h
  | some t =>
    cases hfn : d.founder_name with
    | none => simp [assembleProjectOut, ht, hfn] at h
    | some fn =>
      cases hfe : d.founder_email with
      | none => simp [assembleProjectOut, ht, hfn, hfe] at h
      | some fe =>
        cases hdesc : d.description with
        | none => simp [assembleProjectOut, ht, hfn, hfe, hdesc] at h
        | some desc =>
          simp only [assembleProjectOut, ht, hfn, hfe, hdesc, Except.ok.injEq] at h
          subst h
          simp

/-- A document missing one of the required text fields fails pydantic
validation. -/
theorem assembleProjectOut_error (dons : List DonationDoc) (d : ProjectDoc)
    (hmiss : d.title = none ∨ d.founder_name = none ∨ d.founder_email = none ∨
      d.description = none) :
    ∃ m, assembleProjectOut dons d = Except.error m := by
  cases ht : d.title with
  | none =>
    exact ⟨"1 validation error for ProjectOut: title none is not an allowed value",
      by simp [assembleProjectOut, ht]⟩
  | some t =>
    cases hfn : d.founder_name with
    | none =>
      exact ⟨"1 validation error for ProjectOut: founder_name none is not an allowed value",
        by simp [assembleProjectOut, ht, hfn]⟩
    | some fn =>
      cases hfe : d.founder_email with
      | none =>
        exact ⟨"1 validation error for ProjectOut: founder_email none is not an allowed value",
          by simp [assembleProjectOut, ht, hfn, hfe]⟩
      | some fe =>
        cases hdesc : d.description with
        | none =>
          exact ⟨"1 validation error for ProjectOut: description none is not an allowed value",
            by simp [assembleProjectOut, ht, hfn, hfe, hdesc]⟩
        | some desc =>
          rcases hmiss with h | h | h | h <;> simp_all

/-- Every view in a successful assembly comes from one of the assembled
documents. -/
theorem assembleAll_mem (dons : List DonationDoc) (ds : List ProjectDoc)
    (L : List ProjectOut) (h : assembleAll dons ds = Except.ok L) :
    ∀ v ∈ L, ∃ d ∈ ds, assembleProjectOut dons d = Except.ok v := by
  induction ds generalizing L with
  | nil =>
    simp only [assembleAll, Except.ok.injEq] at h
    subst h
    simp
  | cons d ds ih =>
    simp only [assembleAll] at h
    cases hd : assembleProjectOut dons d with
    | error m => rw [hd] at h; exact absurd h (by simp)
    | ok v0 =>
      rw [hd] at h
      cases hds : assembleAll dons ds with
      | error m => rw [hds] at h; exact absurd h (by simp)
      | ok vs =>
        rw [hds] at h
        simp only [Except.ok.injEq] at h
        subst h
        intro v hv
        rcases List.mem_cons.mp hv with hv | hv
        · exact ⟨d, by simp, hv ▸ hd⟩
        · rcases ih vs hds v hv with ⟨d2, hd2, hok⟩
          exact ⟨d2, by simp [hd2], hok⟩

/-- If any assembled document fails validation, the whole assembly fails
(with the first failing document's message). -/
theorem assembleAll_error_of_mem (dons : List DonationDoc) (ds : List ProjectDoc)
    (d : ProjectDoc) (hmem : d ∈ ds) (m0 : String)
    (herr : assembleProjectOut dons d = Except.error m0) :
    ∃ m, assembleAll dons ds = Except.error m := by
  induction ds with
  | nil => simp at hmem
  | cons d1 ds ih =>
    simp only [assembleAll]
    cases hd1 : assembleProjectOut dons d1 with
    | error m => exact ⟨m, rfl⟩
    | ok v =>
      rcases List.mem_cons.mp hmem with rfl | hmem2
      · rw [herr] at hd1; exact absurd hd1 (by simp)
      · rcases ih hmem2 with ⟨m, hm⟩
        rw [hm]
        exact ⟨m, rfl⟩

/-- With no query parameters, `list_projects` considers every stored
project document. -/
theorem get_documents_noFilter (s : Store) :
    get_documents s { category := none, featured := none } = s.projects := by
  unfold get_documents
  rw [List.filter_eq_self]
  intro d _
  simp [matchesFilter]

/-- The category-"AI" filter keeps exactly the documents whose stored
`category` field is present and equal to "AI". -/
theorem get_documents_categoryAI (s : Store) :
    get_documents s { category := some "AI", featured := none } =
      s.projects.filter (fun d => d.category == some "AI") := by
  unfold get_documents
  apply List.filter_congr
  intro d _
  simp [matchesFilter]

/-- Characterisation of a successful `get_project`: a document with the
requested identifier was found and assembled. -/
theorem get_project_ok (s : Store) (pid : String) (v : ProjectOut)
    (h : get_project s pid = Except.ok v) :
    ∃ d, findOneProject s pid = some d ∧ d._id = pid ∧
      assembleProjectOut s.donations d = Except.ok v := by
  unfold get_project get_project_body at h
  by_cases hvalid : isValidObjectId pid
  · rw [if_neg (by simp [hvalid])] at h
    cases hfind : findOneProject s pid with
    | none => simp [hfind, handleBoundary] at h
    | some d =>
      have hid : d._id = pid := by
        have := List.find?_some hfind
        simpa using this
      cases hasm : assembleProjectOut s.donations d with
      | error m => simp [hfind, hasm, handleBoundary] at h
      | ok v0 =>
        simp only [hfind, hasm, handleBoundary, Except.ok.injEq] at h
        subst h
        exact ⟨d, rfl, hid, hasm⟩
  · rw [if_pos (by simp [hvalid])] at h
    exact absurd h (by simp [handleBoundary])

/-- A successful `list_projects` call is exactly the assembly of the
filtered stored documents. -/
theorem list_projects_ok (s : Store) (cat : Option String) (feat : Option Bool)
    (L : List ProjectOut) (h : list_projects s cat feat = Except.ok L) :
    assembleAll s.donations (get_documents s (mkProjFilter cat feat)) = Except.ok L := by
  unfold list_projects at h
  cases hasm : assembleAll s.donations (get_documents s (mkProjFilter cat feat)) with
  | error m => rw [hasm] at h; exact absurd h (by simp [handleBoundary500])
  | ok vs =>
    rw [hasm] at h
    simp only [handleBoundary500, Except.ok.injEq] at h
    rw [h]

/-! ## Concrete sample data used by the witnesses -/

/-- The empty store. -/
def emptyStore : Store := { projects := [], donations := [], nextId := 0 }

/-- A fully-populated stored project with category "AI". -/
def docAI : ProjectDoc :=
  { _id := "507f1f77bcf86cd799439011", title := some "Mars Rover",
    founder_name := some "A", founder_email := some "a@x.com",
    description := some "d", category := some "AI",
    goal_amount := some 1000, featured := some false }

/-- A fully-populated stored project with category "Space". -/
def docSpace : ProjectDoc :=
  { _id := "aaaaaaaaaaaaaaaaaaaaaaaa", title := some "Sat",
    founder_name := some "B", founder_email := some "b@x.com",
    description := some "e", category := some "Space",
    goal_amount := some 500, featured := some true }

/-- A stored project missing its required `title` field. -/
def docNoTitle : ProjectDoc :=
  { _id := "cccccccccccccccccccccccc", title := none,
    founder_name := some "C", founder_email := some "c@x.com",
    description := some "f", category := some "AI",
    goal_amount := some 10, featured := some false }

/-- A stored project missing only the defaulted fields `category`,
`goal_amount` and `featured`. -/
def docNoDefaults : ProjectDoc :=
  { _id := "dddddddddddddddddddddddd", title := some "T",
    founder_name := some "D", founder_email := some "d@x.com",
    description := some "g", category := none,
    goal_amount := none, featured := none }

/-- A donation of 250 to `docAI`. -/
def donation250 : DonationDoc :=
  { _id := "000000000000000000000002",
    project_id := "507f1f77bcf86cd799439011", donor_name := "B",
    amount := 250, message := none }

/-- A donation of 100 to `docAI`. -/
def donation100 : DonationDoc :=
  { _id := "000000000000000000000003",
    project_id := "507f1f77bcf86cd799439011", donor_name := "C",
    amount := 100, message := none }

/-- A store holding `docAI` and `docSpace` with two donations to
`docAI`. -/
def sampleStore : Store :=
  { projects := [docAI, docSpace], donations := [donation250, donation100],
    nextId := 4 }

/-- The view of `docAI` inside `sampleStore`. -/
def viewAI : ProjectOut :=
  { id := "507f1f77bcf86cd799439011", title := "Mars Rover",
    founder_name := "A", founder_email := "a@x.com", description := "d",
    category := "AI", goal_amount := 1000, featured := false,
    total_donations := 350 }

/-- The view of `docSpace` inside `sampleStore` (no donations reference
it). -/
def viewSpace : ProjectOut :=
  { id := "aaaaaaaaaaaaaaaaaaaaaaaa", title := "Sat", founder_name := "B",
    founder_email := "b@x.com", description := "e", category := "Space",
    goal_amount := 500, featured := true, total_donations := 0 }

/-- A database connection whose collection listing fails with "boom". -/
def failingConn : DbConn :=
  { name := some "mydb", listCollectionNames := Except.error "boom" }

/-- A donation of `2^53` to `docAI`. -/
def donationBig : DonationDoc :=
  { _id := "e00000000000000000000001", project_id := "507f1f77bcf86cd799439011",
    donor_name := "E", amount := 9007199254740992, message := none }

/-- A donation of `1` to `docAI`. -/
def donationOne : DonationDoc :=
  { _id := "e00000000000000000000002", project_id := "507f1f77bcf86cd799439011",
    donor_name := "F", amount := 1, message := none }

/-- A donation of `-2^53` to `docAI` (amounts are never checked for
non-negativity). -/
def donationNegBig : DonationDoc :=
  { _id := "e00000000000000000000003", project_id := "507f1f77bcf86cd799439011",
    donor_name := "G", amount := -9007199254740992, message := none }

/-- A store containing only the malformed `docNoTitle` document. -/
def storeNoTitle : Store :=
  { projects := [docNoTitle], donations := [], nextId := 5 }

/-- The view of `docNoDefaults`: the three optional fields come out as
their documented defaults. -/
def viewNoDefaults : ProjectOut :=
  { id := "dddddddddddddddddddddddd", title := "T", founder_name := "D",
    founder_email := "d@x.com", description := "g", category := "AI",
    goal_amount := 0, featured := false, total_donations := 0 }

/-! ## The claims -/

/-- Claim C1, counterexample: calling `get_project` with the syntactically
invalid identifier "not-a-valid-id" yields HTTP status 500, not the 400
client error the claim asserts — the `bson.errors.InvalidId` raised by
`ObjectId(project_id)` at src/main.py:143 is not an `HTTPException` and is
caught by the generic `except Exception` handler at src/main.py:166. -/
theorem spec_C1_counterexample :
    responseStatus (get_project emptyStore "not-a-valid-id") = some 500 ∧
    responseStatus (get_project emptyStore "not-a-valid-id") ≠ some 400 := by
  constructor
  · rfl
  · decide

/-- Claim C1, amended: for every call to `get_project` with an id that is
not parseable as an ObjectId, the operation fails with a 500 generic
server error whose detail is the `InvalidId` message text (not a 400
`InvalidIdentifier` client error). -/
theorem spec_C1_invalid_id_is_500 (s : Store) (pid : String)
    (h : isValidObjectId pid = false) :
    get_project s pid = Except.error (HttpError.http 500 (objectIdErrMsg pid)) := by
  unfold get_project get_project_body
  rw [if_pos (by simp [h])]
  rfl

/-- Witness for the amended C1 theorem at the concrete input
"not-a-valid-id". -/
theorem spec_C1_invalid_id_is_500_witness :
    get_project emptyStore "not-a-valid-id" =
      Except.error (HttpError.http 500 (objectIdErrMsg "not-a-valid-id")) :=
  spec_C1_invalid_id_is_500 emptyStore "not-a-valid-id" (by decide)

/-- Claim C3: a `create_donation` call whose `project_id` is a valid
identifier that resolves to no stored project fails with 404 "Project not
found" and leaves the store (in particular the donation collection)
unchanged. -/
theorem spec_C3_notfound_no_insert (s : Store) (don : DonationIn)
    (hvalid : isValidObjectId don.project_id = true)
    (habsent : findOneProject s don.project_id = none) :
    (create_donation s don).response =
      Except.error (HttpError.http 404 "Project not found") ∧
    (create_donation s don).store = s := by
  unfold create_donation create_donation_body
  simp [hvalid, habsent, handleBoundary]

/-- Witness for C3: the valid-format identifier of the spec scenario
against the empty store. -/
theorem spec_C3_witness :
    (create_donation emptyStore
        { project_id := "507f1f77bcf86cd799439011", donor_name := "B",
          amount := 250, message := none }).response =
      Except.error (HttpError.http 404 "Project not found") ∧
    (create_donation emptyStore
        { project_id := "507f1f77bcf86cd799439011", donor_name := "B",
          amount := 250, message := none }).store = emptyStore :=
  spec_C3_notfound_no_insert emptyStore
    { project_id := "507f1f77bcf86cd799439011", donor_name := "B",
      amount := 250, message := none } (by decide) (by decide)

/-- Claim C4: a `create_donation` call whose `project_id` is not a valid
identifier fails with 400 "Invalid project_id", leaves the store
unchanged, and performs no store operation at all (no lookup, no
insert). -/
theorem spec_C4_invalid_id_no_lookup (s : Store) (don : DonationIn)
    (hinvalid : isValidObjectId don.project_id = false) :
    (create_donation s don).response =
      Except.error (HttpError.http 400 "Invalid project_id") ∧
    (create_donation s don).store = s ∧
    (create_donation s don).trace = [] := by
  unfold create_donation create_donation_body
  simp [hinvalid, handleBoundary]

/-- Witness for C4 at the spec scenario input "not-a-valid-id". -/
theorem spec_C4_witness :
    (create_donation sampleStore
        { project_id := "not-a-valid-id", donor_name := "B",
          amount := 5, message := none }).response =
      Except.error (HttpError.http 400 "Invalid project_id") ∧
    (create_donation sampleStore
        { project_id := "not-a-valid-id", donor_name := "B",
          amount := 5, message := none }).store = sampleStore ∧
    (create_donation sampleStore
        { project_id := "not-a-valid-id", donor_name := "B",
          amount := 5, message := none }).trace = [] :=
  spec_C4_invalid_id_no_lookup sampleStore
    { project_id := "not-a-valid-id", donor_name := "B",
      amount := 5, message := none } (by decide)

/-- Claim C9: the empty string is falsy in Python, so
`list_projects` with `category=""` builds the same (empty) category filter
as an absent parameter, and an empty filter matches every stored
project. -/
theorem spec_C9_empty_category_no_filter (s : Store) (featured : Option Bool) :
    list_projects s (some "") featured = list_projects s none featured ∧
    get_documents s (mkProjFilter (some "") none) = s.projects := by
  constructor
  · rfl
  · rw [show mkProjFilter (some "") none = ⟨none, none⟩ from rfl]
    exact get_documents_noFilter s

/-- Claim C5: a project with no stored donation referencing its identifier
is returned with `total_donations = 0` (a present numeric zero) by both
`list_projects` and `get_project`. -/
theorem spec_C5_zero_donations_zero_total (s : Store) (pid : String)
    (L : List ProjectOut) (v w : ProjectOut)
    (hnone : ∀ don ∈ s.donations, don.project_id ≠ pid)
    (hlist : list_projects s none none = Except.ok L)
    (hvL : v ∈ L) (hvid : v.id = pid)
    (hget : get_project s pid = Except.ok w) :
    v.total_donations = 0 ∧ w.total_donations = 0 := by
  constructor
  · have hall := list_projects_ok s none none L hlist
    rcases assembleAll_mem _ _ _ hall v hvL with ⟨d, _, hok⟩
    rcases assembleProjectOut_ok _ _ _ hok with ⟨hid, _, _, _, htot, _⟩
    have hdid : d._id = pid := by rw [← hid, hvid]
    rw [htot, hdid]
    exact aggregateTotal_eq_zero _ _ hnone
  · rcases get_project_ok _ _ _ hget with ⟨d, _, hdid, hok⟩
    rcases assembleProjectOut_ok _ _ _ hok with ⟨_, _, _, _, htot, _⟩
    rw [htot, hdid]
    exact aggregateTotal_eq_zero _ _ hnone

/-- Witness for C5: `docSpace` inside `sampleStore` has no donations, and
its view from both endpoints carries `total_donations = 0`. -/
theorem spec_C5_witness :
    viewSpace.total_donations = 0 ∧ viewSpace.total_donations = 0 :=
  spec_C5_zero_donations_zero_total sampleStore "aaaaaaaaaaaaaaaaaaaaaaaa"
    [viewAI, viewSpace] viewSpace viewSpace
    (by decide) (by
      norm_num [list_projects, handleBoundary500, get_documents, matchesFilter,
        mkProjFilter, assembleAll, assembleProjectOut, aggregateTotal,
        aggregateRows, totalOfRows, sampleStore, docAI, docSpace, donation250,
        donation100, viewAI, viewSpace]
      simp)
    (by decide) (by decide) (by
      norm_num [get_project, get_project_body, handleBoundary, findOneProject,
        (show isValidObjectId "aaaaaaaaaaaaaaaaaaaaaaaa" = true from by decide),
        assembleProjectOut, aggregateTotal, aggregateRows, totalOfRows,
        sampleStore, docAI, docSpace, donation250, donation100, viewSpace,
        List.find?]
      simp)

/-- Claim C6, counterexample: the same three donations `2^53`, `1`,
`-2^53` to the same project, in two insertion orders (a permutation of one
another), produce different totals under the program's arithmetic — the
Mongo `$sum` accumulation over BSON doubles rounds each partial sum, and
`2^53 + 1` rounds back to `2^53`.  Order `[2^53, 1, -2^53]` accumulates to
`0`; order `[2^53, -2^53, 1]` accumulates to `1`.  The claim's "the same
for every insertion order (sum is order-independent)" is therefore false
for the code's double-valued amounts. -/
theorem spec_C6_counterexample :
    [donationBig, donationOne, donationNegBig].Perm
      [donationBig, donationNegBig, donationOne] ∧
    aggregateTotalFloat [donationBig, donationOne, donationNegBig]
      "507f1f77bcf86cd799439011" = 0 ∧
    aggregateTotalFloat [donationBig, donationNegBig, donationOne]
      "507f1f77bcf86cd799439011" = 1 ∧
    (0 : ℚ) ≠ 1 := by
  refine ⟨List.Perm.cons _ (List.Perm.swap _ _ _), ?_, ?_, by norm_num⟩
  · have hfm : ([donationBig, donationOne, donationNegBig].filter
        (fun d => d.project_id == "507f1f77bcf86cd799439011")).map (fun d => d.amount) =
        [9007199254740992, 1, -9007199254740992] := by decide
    unfold aggregateTotalFloat
    rw [hfm]
    unfold floatSum
    rw [List.foldl_cons, List.foldl_cons, List.foldl_cons, List.foldl_nil]
    rw [zero_add, fl_big,
        show (9007199254740992 : ℚ) + 1 = 9007199254740993 from by norm_num,
        fl_tiePlusOne,
        show (9007199254740992 : ℚ) + -9007199254740992 = 0 from by norm_num,
        fl_zero]
  · have hfm : ([donationBig, donationNegBig, donationOne].filter
        (fun d => d.project_id == "507f1f77bcf86cd799439011")).map (fun d => d.amount) =
        [9007199254740992, -9007199254740992, 1] := by decide
    unfold aggregateTotalFloat
    rw [hfm]
    unfold floatSum
    rw [List.foldl_cons, List.foldl_cons, List.foldl_cons, List.foldl_nil]
    rw [zero_add, fl_big,
        show (9007199254740992 : ℚ) + -9007199254740992 = 0 from by norm_num,
        fl_zero, zero_add, fl_one]

/-- Claim C6, amended: the `total_donations` computed for a project is the
left-to-right correctly-rounded double accumulation of the matching
donations' `amount` values in stored order; whenever no accumulation step
rounds (the fold is exact), it coincides with the exact sum of the amounts
— the value the idealized endpoints return via `aggregateTotal` — and is
then the same for every insertion order.  (Without that hypothesis
order-independence fails, per the counterexample.) -/
theorem spec_C6_rounded_fold_total (dons1 dons2 : List DonationDoc) (pid : String)
    (hperm : dons1.Perm dons2)
    (h1 : floatSum ((dons1.filter (fun d => d.project_id == pid)).map (fun d => d.amount)) =
      ((dons1.filter (fun d => d.project_id == pid)).map (fun d => d.amount)).sum)
    (h2 : floatSum ((dons2.filter (fun d => d.project_id == pid)).map (fun d => d.amount)) =
      ((dons2.filter (fun d => d.project_id == pid)).map (fun d => d.amount)).sum) :
    aggregateTotalFloat dons1 pid =
      floatSum ((dons1.filter (fun d => d.project_id == pid)).map (fun d => d.amount)) ∧
    aggregateTotalFloat dons1 pid = aggregateTotal dons1 pid ∧
    aggregateTotalFloat dons1 pid = aggregateTotalFloat dons2 pid := by
  refine ⟨rfl, ?_, ?_⟩
  · rw [aggregateTotal_eq_sum]
    exact h1
  · show floatSum _ = floatSum _
    rw [h1, h2]
    exact List.Perm.sum_eq ((hperm.filter _).map _)

/-- Witness for the amended C6 theorem: the donations `2^53` and `-2^53`
accumulate exactly (partial sums `2^53` and `0` are representable) in both
insertion orders, so both orders give the exact total `0`. -/
theorem spec_C6_rounded_fold_total_witness :
    aggregateTotalFloat [donationBig, donationNegBig] "507f1f77bcf86cd799439011" =
      floatSum (([donationBig, donationNegBig].filter
        (fun d => d.project_id == "507f1f77bcf86cd799439011")).map (fun d => d.amount)) ∧
    aggregateTotalFloat [donationBig, donationNegBig] "507f1f77bcf86cd799439011" =
      aggregateTotal [donationBig, donationNegBig] "507f1f77bcf86cd799439011" ∧
    aggregateTotalFloat [donationBig, donationNegBig] "507f1f77bcf86cd799439011" =
      aggregateTotalFloat [donationNegBig, donationBig] "507f1f77bcf86cd799439011" :=
  spec_C6_rounded_fold_total [donationBig, donationNegBig]
    [donationNegBig, donationBig] "507f1f77bcf86cd799439011"
    (List.Perm.swap _ _ _)
    (by
      have hfm : ([donationBig, donationNegBig].filter
          (fun d => d.project_id == "507f1f77bcf86cd799439011")).map (fun d => d.amount) =
          [9007199254740992, -9007199254740992] := by decide
      rw [hfm]
      unfold floatSum
      rw [List.foldl_cons, List.foldl_cons, List.foldl_nil]
      rw [zero_add, fl_big,
          show (9007199254740992 : ℚ) + -9007199254740992 = 0 from by norm_num,
          fl_zero]
      norm_num [List.sum_cons, List.sum_nil])
    (by
      have hfm : ([donationNegBig, donationBig].filter
          (fun d => d.project_id == "507f1f77bcf86cd799439011")).map (fun d => d.amount) =
          [-9007199254740992, 9007199254740992] := by decide
      rw [hfm]
      unfold floatSum
      rw [List.foldl_cons, List.foldl_cons, List.foldl_nil]
      rw [zero_add, fl_negBig,
          show (-9007199254740992 : ℚ) + 9007199254740992 = 0 from by norm_num,
          fl_zero]
      norm_num [List.sum_cons, List.sum_nil])

/-- Claim C7: `test_database` is a total function of the store state — the
endpoint always produces a response body (`backend` reports "✅ Running"
in every state, including an uninitialized `db`), and a failing
`list_collection_names` call is downgraded into the descriptive status
string (truncated to 50 characters) inside the body rather than raised. -/
theorem spec_C7_test_never_raises (db : DbConn) (urlSet : Bool) (e : String)
    (herr : db.listCollectionNames = Except.error e) :
    (test_database (some db) urlSet).database =
      "⚠️  Connected but Error: " ++ e.take 50 ∧
    (test_database (some db) urlSet).backend = "✅ Running" ∧
    (test_database none urlSet).backend = "✅ Running" := by
  refine ⟨?_, ?_, rfl⟩ <;> simp [test_database, herr]

/-- Witness for C7: a connection whose collection listing raises
"boom". -/
theorem spec_C7_witness :
    (test_database (some failingConn) true).database =
      "⚠️  Connected but Error: " ++ "boom".take 50 ∧
    (test_database (some failingConn) true).backend = "✅ Running" ∧
    (test_database none true).backend = "✅ Running" :=
  spec_C7_test_never_raises failingConn true "boom" rfl

/-- Claim C10: in `create_donation` and `get_project`, an `HTTPException`
raised inside the handler body (the 400 and 404 client errors) passes
through the `except HTTPException: raise` arm of the boundary unchanged —
its status and detail reach the client as raised, never rewrapped as a
500. -/
theorem spec_C10_client_errors_preserved (s : Store) (don : DonationIn)
    (pid : String) (code1 code2 : Nat) (d1 d2 : String)
    (h1 : (create_donation_body s don).1 = Except.error (Exc.httpExc code1 d1))
    (h2 : get_project_body s pid = Except.error (Exc.httpExc code2 d2)) :
    (create_donation s don).response = Except.error (HttpError.http code1 d1) ∧
    get_project s pid = Except.error (HttpError.http code2 d2) := by
  constructor
  · have hresp : (create_donation s don).response =
        handleBoundary (create_donation_body s don).1 := rfl
    rw [hresp, h1]
    rfl
  · unfold get_project
    rw [h2]
    rfl

/-- Witness for C10: the 400 of an invalid donation id and the 404 of a
valid but unknown project id both reach the client unchanged. -/
theorem spec_C10_witness :
    (create_donation sampleStore
        { project_id := "not-a-valid-id", donor_name := "B",
          amount := 5, message := none }).response =
      Except.error (HttpError.http 400 "Invalid project_id") ∧
    get_project sampleStore "bbbbbbbbbbbbbbbbbbbbbbbb" =
      Except.error (HttpError.http 404 "Project not found") :=
  spec_C10_client_errors_preserved sampleStore
    { project_id := "not-a-valid-id", donor_name := "B",
      amount := 5, message := none }
    "bbbbbbbbbbbbbbbbbbbbbbbb" 400 404 "Invalid project_id" "Project not found"
    (by decide) (by decide)

/-- Claim C2: `list_projects` with `category="AI"` returns exactly the
assembly, in stored order, of the project documents whose stored
`category` field equals "AI"; every returned view carries category "AI";
and a project created through the schema without an explicit category is
stored with `category = "AI"` (the schema default) and therefore matches
the filter. -/
theorem spec_C2_filter_AI_exact (s : Store) (L : List ProjectOut)
    (p : ProjectIn) (s2 : Store)
    (hok : list_projects s (some "AI") none = Except.ok L)
    (hp : p.category = none) :
    assembleAll s.donations (s.projects.filter (fun d => d.category == some "AI")) =
      Except.ok L ∧
    (∀ v ∈ L, v.category = "AI") ∧
    get_documents (create_project s2 p).2 { category := some "AI", featured := none } =
      get_documents s2 { category := some "AI", featured := none } ++
        [{ _id := idOfNat s2.nextId, title := some p.title,
           founder_name := some p.founder_name,
           founder_email := some p.founder_email,
           description := some p.description, category := some "AI",
           goal_amount := some p.goal_amount,
           featured := some (p.featured.getD false) }] := by
  have hfil := list_projects_ok s (some "AI") none L hok
  rw [show mkProjFilter (some "AI") none = ⟨some "AI", none⟩ from rfl,
      get_documents_categoryAI] at hfil
  refine ⟨hfil, ?_, ?_⟩
  · intro v hv
    rcases assembleAll_mem _ _ _ hfil v hv with ⟨d, hd, hok2⟩
    rcases assembleProjectOut_ok _ _ _ hok2 with ⟨_, hcat, _⟩
    have hAI : d.category = some "AI" := by
      simpa using (List.mem_filter.mp hd).2
    rw [hcat, hAI]
    rfl
  · simp [create_project, get_documents, List.filter_append, matchesFilter, hp]

/-- Witness for C2: filtering `sampleStore` by "AI" returns exactly
`docAI`'s view, and creating a project without a category into the empty
store stores it with category "AI". -/
theorem spec_C2_witness :
    assembleAll sampleStore.donations
      (sampleStore.projects.filter (fun d => d.category == some "AI")) =
      Except.ok [viewAI] ∧
    (∀ v ∈ [viewAI], v.category = "AI") ∧
    get_documents (create_project emptyStore
        { title := "T", founder_name := "D", founder_email := "d@x.com",
          description := "g", category := none, goal_amount := 7,
          featured := none }).2
      { category := some "AI", featured := none } =
      get_documents emptyStore { category := some "AI", featured := none } ++
        [{ _id := idOfNat emptyStore.nextId, title := some "T",
           founder_name := some "D", founder_email := some "d@x.com",
           description := some "g", category := some "AI",
           goal_amount := some 7, featured := some false }] :=
  spec_C2_filter_AI_exact sampleStore [viewAI]
    { title := "T", founder_name := "D", founder_email := "d@x.com",
      description := "g", category := none, goal_amount := 7,
      featured := none } emptyStore
    (by
      norm_num [list_projects, handleBoundary500, get_documents, matchesFilter,
        mkProjFilter, assembleAll, assembleProjectOut, aggregateTotal,
        aggregateRows, totalOfRows, sampleStore, docAI, docSpace, donation250,
        donation100, viewAI])
    rfl

/-- Claim C8: a stored project document lacking one of the required text
fields `title`, `founder_name`, `founder_email` or `description` makes
`list_projects` (and `get_project` for that document) fail with a 500
(pydantic rejects `None` for a required `str` field, and the
`ValidationError` is caught by the generic handler); a successful assembly
proves all four required fields were present, and only `category`,
`goal_amount` and `featured` ever receive defaults. -/
theorem spec_C8_missing_required_field_500 (s : Store) (d d2 : ProjectDoc)
    (v2 : ProjectOut)
    (hmem : d ∈ s.projects)
    (hmiss : d.title = none ∨ d.founder_name = none ∨ d.founder_email = none ∨
      d.description = none)
    (hvalid : isValidObjectId d._id = true)
    (hfound : findOneProject s d._id = some d)
    (hd2 : assembleProjectOut s.donations d2 = Except.ok v2) :
    responseStatus (list_projects s none none) = some 500 ∧
    responseStatus (get_project s d._id) = some 500 ∧
    v2.category = d2.category.getD "AI" ∧
    v2.goal_amount = d2.goal_amount.getD 0 ∧
    v2.featured = d2.featured.getD false ∧
    d2.title = some v2.title ∧ d2.founder_name = some v2.founder_name ∧
    d2.founder_email = some v2.founder_email ∧
    d2.description = some v2.description := by
  rcases assembleProjectOut_error s.donations d hmiss with ⟨m0, herr⟩
  refine ⟨?_, ?_, ?_⟩
  · rcases assembleAll_error_of_mem s.donations s.projects d hmem m0 herr with ⟨m, hm⟩
    unfold list_projects
    rw [show mkProjFilter none none = ⟨none, none⟩ from rfl,
        get_documents_noFilter, hm]
    rfl
  · unfold get_project get_project_body
    rw [if_neg (by simp [hvalid])]
    simp [hfound, herr, handleBoundary, responseStatus]
  · rcases assembleProjectOut_ok _ _ _ hd2 with
      ⟨_, hcat, hgoal, hfeat, _, h1, h2, h3, h4⟩
    exact ⟨hcat, hgoal, hfeat, h1, h2, h3, h4⟩

/-- Witness for C8: `storeNoTitle` holds a document without `title`; both
endpoints report 500 for it, while `docNoDefaults` (missing only the
defaulted fields) assembles with category "AI", goal 0, featured false. -/
theorem spec_C8_witness :
    responseStatus (list_projects storeNoTitle none none) = some 500 ∧
    responseStatus (get_project storeNoTitle "cccccccccccccccccccccccc") = some 500 ∧
    viewNoDefaults.category = docNoDefaults.category.getD "AI" ∧
    viewNoDefaults.goal_amount = docNoDefaults.goal_amount.getD 0 ∧
    viewNoDefaults.featured = docNoDefaults.featured.getD false ∧
    docNoDefaults.title = some viewNoDefaults.title ∧
    docNoDefaults.founder_name = some viewNoDefaults.founder_name ∧
    docNoDefaults.founder_email = some viewNoDefaults.founder_email ∧
    docNoDefaults.description = some viewNoDefaults.description :=
  spec_C8_missing_required_field_500 storeNoTitle docNoTitle docNoDefaults
    viewNoDefaults (by decide) (by decide) (by decide) (by decide) (by decide)

end Moonshot
